import Mathlib

/-!
Verification development for the L2_Benchmark cost-report scripts.

The repository consists of four linear pandas pipelines:
`src/hardhat/panda.py`, `src/data_analysis/avg_cost.py`,
`src/data_analysis/contract.py` and `src/data_analysis/deployment.py`.
This file gives a shallow embedding of their data model and of the
aggregation, cleaning, pivoting, ranking and comparison steps, and proves
or refutes the specification claims about them.

Modelling conventions:
* a pandas DataFrame is a `List` of row structures;
* float costs are rationals (`ℚ`); where IEEE-754 special values matter
  (division by zero, missing-key `map` producing `NaN`) the four-case
  type `PFloat` (finite / +inf / -inf / NaN) models numpy semantics;
* a raised exception is an `Except.error` / `Option.none` value;
* `pd.to_numeric(errors := coerce)` followed by `dropna` is `filterMap`
  with a decimal parser; `astype(float)` over a column is `mapM`, so a
  single unparsable entry fails the whole column, as the exception does;
* `Series.sort_values()` is called with its default kind (quicksort),
  which pandas documents as not stable: its contract promises only a
  permutation of the input that is ascending in the sorted value.  The
  relation `SortValuesSpec` captures exactly that contract (and nothing
  more), and the executable `sortValues` is one fixed representative of
  it, used in the summary trace where tie order plays no role.
-/

/-- Digits of a decimal literal to a natural number. -/
def natOfDigits (cs : List Char) : Nat :=
  cs.foldl (fun a c => 10 * a + (c.toNat - 48)) 0

/-- Syntactic part of decimal parsing: an optional sign, an integer
part, and an optional fractional part, returned as
`(negative, integer digits, fraction digits, fraction length)`.  Any
other character (for example a currency symbol) makes the cell
unparsable. -/
def parsePieces (s : String) : Option (Bool × Nat × Nat × Nat) :=
  let cs := s.data
  let neg : Bool := match cs with
    | '-' :: _ => true
    | _ => false
  let rest : List Char := match cs with
    | '-' :: t => t
    | '+' :: t => t
    | _ => cs
  let intPart := rest.takeWhile Char.isDigit
  match rest.dropWhile Char.isDigit with
  | [] =>
      if intPart.isEmpty then none
      else some (neg, natOfDigits intPart, 0, 0)
  | '.' :: frac =>
      if frac.all Char.isDigit && !(intPart.isEmpty && frac.isEmpty) then
        some (neg, natOfDigits intPart, natOfDigits frac, frac.length)
      else none
  | _ => none

/-- Model of `pd.to_numeric(errors := coerce)` on one cell: a parsable
decimal becomes its rational value, anything else becomes `none`
(pandas: `NaN`). -/
def toNumeric (s : String) : Option ℚ :=
  (parsePieces s).map fun p =>
    (if p.1 then -1 else 1) *
      ((p.2.1 : ℚ) + (p.2.2.1 : ℚ) / (10 : ℚ) ^ p.2.2.2)

/-! ## `src/hardhat/panda.py` -/

/-- A raw CSV row of `output.csv` as read by `panda.py`: the cost column
`USD Avg` is still text. -/
structure PRawRow where
  contract : String
  method : String
  network : String
  usdAvg : String
deriving DecidableEq

/-- A row of `panda.py`'s DataFrame after `to_numeric` and `dropna`. -/
structure PRow where
  contract : String
  method : String
  network : String
  usdAvg : ℚ
deriving DecidableEq

/-- Lines 16-18 of `panda.py`: coerce `USD Avg` with
`pd.to_numeric(errors := coerce)` and drop the rows whose cost became
`NaN`. -/
def cleanPanda (raw : List PRawRow) : List PRow :=
  raw.filterMap fun r =>
    (toNumeric r.usdAvg).map fun q => ⟨r.contract, r.method, r.network, q⟩

/-- Line 28 of `panda.py`: `df[df[Method] != deployment]`. -/
def executionDf (l : List PRow) : List PRow :=
  l.filter fun r => decide (r.method ≠ "deployment")

/-- Line 60 of `panda.py`: `df[df[Method] == deployment]`. -/
def deploymentDf (l : List PRow) : List PRow :=
  l.filter fun r => decide (r.method = "deployment")

/-- Lexicographic comparison of `(Method, Network)` keys, the order in
which `groupby([Method, Network])` emits its groups. -/
def pairLE (a b : String × String) : Bool :=
  decide (a.1 < b.1 ∨ (a.1 = b.1 ∧ a.2 ≤ b.2))

/-- The distinct `(Method, Network)` keys of a frame, in the sorted order
`groupby` produces. -/
def methodNetworkKeys (l : List PRow) : List (String × String) :=
  ((l.map fun r => (r.method, r.network)).dedup).mergeSort pairLE

/-- Line 31 of `panda.py`:
`execution_df.groupby([Method, Network])[USD Avg].sum()` — one output row
per distinct key, whose value is the sum of the matching rows. -/
def totalCostByFunction (l : List PRow) : List ((String × String) × ℚ) :=
  (methodNetworkKeys (executionDf l)).map fun k =>
    (k, (((executionDf l).filter fun r =>
      decide ((r.method, r.network) = k)).map (fun r => r.usdAvg)).sum)

/-- `DataFrame.pivot` on a list of `(key, value)` pairs: pandas raises
`ValueError` if any `(index, columns)` key is duplicated, otherwise the
cell holds the unique matching value, or `NaN` (`none`) if absent. -/
def pivotCell (l : List ((String × String) × ℚ)) (r c : String) :
    Except String (Option ℚ) :=
  if (l.map Prod.fst).Nodup then
    .ok (((l.filter fun x => decide (x.1 = (r, c))).map (fun x => x.2)).head?)
  else
    .error "Index contains duplicate entries, cannot reshape"

/-- Line 34 of `panda.py`: pivot the grouped execution costs
(`index := Method`, `columns := Network`) and `fillna(0)`. -/
def pivotExecutionCell (raw : List PRawRow) (m n : String) : Except String ℚ :=
  (pivotCell (totalCostByFunction (cleanPanda raw)) m n).map fun o => o.getD 0

/-- The `((Contract, Network), USD Avg)` pairs of the deployment rows,
the input of the pivot at line 63 of `panda.py`. -/
def deploymentPairs (l : List PRow) : List ((String × String) × ℚ) :=
  (deploymentDf l).map fun r => ((r.contract, r.network), r.usdAvg)

/-- Line 63 of `panda.py`: `deployment_df.pivot(...)` (no grouping first)
followed by `fillna(0)`. -/
def pivotDeploymentCell (raw : List PRawRow) (c n : String) : Except String ℚ :=
  (pivotCell (deploymentPairs (cleanPanda raw)) c n).map fun o => o.getD 0

/-- The two chart files `generate_cost_visualizations` saves, in order. -/
def pandaArtifacts : List String :=
  ["total_execution_cost_by_function.png", "deployment_cost_by_contract.png"]

/-- Artifact trace of `generate_cost_visualizations` (`panda.py`).  A
missing `output.csv` prints a message and returns before anything is
written.  Otherwise the two charts are saved in order; a pivot raising
`ValueError` aborts the script, keeping only the files already saved. -/
def pandaRun (file : Option (List PRawRow)) : List String :=
  match file with
  | none => []
  | some raw =>
      let l := cleanPanda raw
      if ((totalCostByFunction l).map Prod.fst).Nodup then
        if ((deploymentPairs l).map Prod.fst).Nodup then pandaArtifacts
        else pandaArtifacts.take 1
      else []

/-! ## `src/data_analysis/deployment.py` -/

/-- A raw CSV row of `deploymentgasestimation.csv`: the
`Est. Deployment Cost (USD)` column is text such as `"$55.20"`. -/
structure DepRawRow where
  contract : String
  network : String
  cost : String
deriving DecidableEq

/-- A row after the cleaning at line 21 of `deployment.py`. -/
structure DepRow where
  contract : String
  network : String
  cost : ℚ
deriving DecidableEq

/-- The regex replace step of line 21: remove every dollar sign. -/
def stripDollar (s : String) : String :=
  ⟨s.data.filter fun c => decide (c ≠ '$')⟩

/-- Line 21 of `deployment.py`:
`df[cost].replace dollar; astype(float)`.  `astype` raises on the first
entry that is not a numeral, so one bad cell fails the whole column:
the result is `none` (an uncaught `ValueError`), not a shorter table. -/
def cleanDeployment : List DepRawRow → Option (List DepRow)
  | [] => some []
  | r :: rs =>
      match toNumeric (stripDollar r.cost), cleanDeployment rs with
      | some q, some rest => some (⟨r.contract, r.network, q⟩ :: rest)
      | _, _ => none

/-- A four-value model of the IEEE-754 doubles that appear in the
comparison table: finite values, the two infinities, and `NaN`.
numpy emits the non-finite values instead of raising. -/
inductive PFloat where
  | fin : ℚ → PFloat
  | inf : PFloat
  | ninf : PFloat
  | nan : PFloat
deriving DecidableEq

/-- numpy subtraction on the four-value float model. -/
def PFloat.sub : PFloat → PFloat → PFloat
  | fin a, fin b => fin (a - b)
  | fin _, inf => ninf
  | fin _, ninf => inf
  | inf, fin _ => inf
  | ninf, fin _ => ninf
  | inf, inf => nan
  | inf, ninf => inf
  | ninf, inf => ninf
  | ninf, ninf => nan
  | nan, _ => nan
  | _, nan => nan

/-- numpy multiplication on the four-value float model. -/
def PFloat.mul : PFloat → PFloat → PFloat
  | fin a, fin b => fin (a * b)
  | fin a, inf => if 0 < a then inf else if a < 0 then ninf else nan
  | fin a, ninf => if 0 < a then ninf else if a < 0 then inf else nan
  | inf, fin b => if 0 < b then inf else if b < 0 then ninf else nan
  | ninf, fin b => if 0 < b then ninf else if b < 0 then inf else nan
  | inf, inf => inf
  | inf, ninf => ninf
  | ninf, inf => ninf
  | ninf, ninf => inf
  | nan, _ => nan
  | _, nan => nan

/-- numpy division on the four-value float model: dividing a nonzero
finite value by zero yields a signed infinity (with a warning, not an
exception), and `0 / 0` yields `NaN`. -/
def PFloat.div : PFloat → PFloat → PFloat
  | fin a, fin b =>
      if b = 0 then (if 0 < a then inf else if a < 0 then ninf else nan)
      else fin (a / b)
  | fin _, inf => fin 0
  | fin _, ninf => fin 0
  | inf, fin b => if b < 0 then ninf else inf
  | ninf, fin b => if b < 0 then inf else ninf
  | inf, inf => nan
  | inf, ninf => nan
  | ninf, inf => nan
  | ninf, ninf => nan
  | nan, _ => nan
  | _, nan => nan

/-- Line 25 of `deployment.py`: `df[df[Network] == Ethereum]`, the
baseline frame. -/
def ethereumRows (rows : List DepRow) : List DepRow :=
  rows.filter fun r => decide (r.network = "Ethereum")

/-- Line 38 of `deployment.py`: `set_index(Contract).to_dict()` —
on duplicate contracts the last row wins, exactly as building a `dict`
row by row does. -/
def lookupLast (l : List DepRow) (c : String) : Option ℚ :=
  ((l.filter fun r => decide (r.contract = c)).map fun r => r.cost).getLast?

/-- One row of the comparison table built at lines 41-49 of
`deployment.py`. -/
structure CompRow where
  contract : String
  network : String
  cost : ℚ
  ethCost : PFloat
  discountUsd : PFloat
  discountPct : PFloat
deriving DecidableEq

/-- Lines 41-49 of `deployment.py`: keep the non-Ethereum rows, `map`
the contract through the Ethereum cost dict (a missing key becomes
`NaN`), then `Discount (USD) = Ethereum Cost - cost` and
`Discount (%) = Discount (USD) / Ethereum Cost * 100` in float
arithmetic. -/
def comparisonRows (rows : List DepRow) : List CompRow :=
  (rows.filter fun r => decide (r.network ≠ "Ethereum")).map fun r =>
    let eth : PFloat := match lookupLast (ethereumRows rows) r.contract with
      | some b => .fin b
      | none => .nan
    let dUsd := eth.sub (.fin r.cost)
    let dPct := (dUsd.div eth).mul (.fin 100)
    ⟨r.contract, r.network, r.cost, eth, dUsd, dPct⟩

/-- The dummy table built at lines 10-16 of `deployment.py` when
`deploymentgasestimation.csv` is missing. -/
def dummyData : List DepRawRow :=
  [⟨"ERC20", "Ethereum", "$55.20"⟩, ⟨"ERC20", "Polygon", "$0.08"⟩,
   ⟨"ERC20", "Arbitrum", "$0.95"⟩, ⟨"ERC721", "Ethereum", "$120.50"⟩,
   ⟨"ERC721", "Polygon", "$0.15"⟩, ⟨"ERC721", "Arbitrum", "$1.50"⟩,
   ⟨"ERC1155", "Ethereum", "$150.75"⟩, ⟨"ERC1155", "Polygon", "$0.20"⟩,
   ⟨"ERC1155", "Arbitrum", "$2.10"⟩, ⟨"Proxy", "Ethereum", "$80.00"⟩,
   ⟨"Proxy", "Polygon", "$0.12"⟩, ⟨"Proxy", "Arbitrum", "$1.20"⟩,
   ⟨"Vesting", "Ethereum", "$95.30"⟩, ⟨"Vesting", "Polygon", "$0.14"⟩,
   ⟨"Vesting", "Arbitrum", "$1.35"⟩, ⟨"DAO", "Ethereum", "$250.00"⟩,
   ⟨"DAO", "Polygon", "$0.30"⟩, ⟨"DAO", "Arbitrum", "$3.00"⟩]

/-- The chart files `deployment.py` writes, in order. -/
def deploymentArtifacts : List String :=
  ["deployment_costs_bar_charts.png", "deployment_costs_line_charts.png",
   "deployment_costs_summary.png"]

/-- Artifact trace of the `deployment.py` script.  A missing input file
does not abort the run: the `except FileNotFoundError` branch at
lines 10-17 substitutes the dummy table and the pipeline continues,
writing every chart.  Only a failure of the `astype(float)` cleaning
stops the script before anything is saved. -/
def deploymentRun (file : Option (List DepRawRow)) : List String :=
  let raw := file.getD dummyData
  match cleanDeployment raw with
  | none => []
  | some _ => deploymentArtifacts

/-! ## `src/data_analysis/avg_cost.py` -/

/-- A row of `contract.csv` as used by `avg_cost.py` (the `usd avg`
column is already numeric there; the script does no cleaning). -/
structure CRow where
  network : String
  contract : String
  function : String
  usdAvg : ℚ
deriving DecidableEq

/-- The distinct networks of the frame in the sorted order
`groupby(Network)` (with its default `sort=True`) emits them. -/
def networkKeys (rows : List CRow) : List String :=
  ((rows.map fun r => r.network).dedup).mergeSort fun a b => decide (a ≤ b)

/-- Arithmetic mean of a column, as pandas `mean` computes it on a
nonempty group. -/
def meanOf (l : List ℚ) : ℚ := l.sum / l.length

/-- Line 120 of `avg_cost.py`, before sorting:
`df.groupby(Network)[usd avg].mean()` — one `(network, mean)` pair per
distinct network. -/
def networkAvg (rows : List CRow) : List (String × ℚ) :=
  (networkKeys rows).map fun n =>
    (n, meanOf (((rows.filter fun r => decide (r.network = n)).map
      fun r => r.usdAvg)))

/-- The comparison `sort_values` uses: ascending by the aggregate. -/
def valLE (a b : String × ℚ) : Bool := decide (a.2 ≤ b.2)

/-- One fixed representative of the `Series.sort_values()` call at
line 120 (default kind, quicksort).  Because that kind is documented as
not stable, only `SortValuesSpec` below — a value-sorted permutation,
with no promise about tie order — is the program's contract; this
executable function serves the summary trace, where tie order plays no
role (the empty frame of C4 in particular). -/
def sortValues (l : List (String × ℚ)) : List (String × ℚ) :=
  l.mergeSort valLE

/-- The full documented contract of the `sort_values()` call at
line 120 of `avg_cost.py` (likewise line 180 of `deployment.py`): an
admitted output is any permutation of the group means that is ascending
in the mean.  pandas documents the default quicksort as not stable, so
the contract promises nothing about the relative order of exactly tied
values. -/
def SortValuesSpec (l l' : List (String × ℚ)) : Prop :=
  List.Perm l' l ∧ List.Sorted (fun a b : String × ℚ => a.2 ≤ b.2) l'

/-- Lines 120-122 of `avg_cost.py`: sort the per-network means ascending
and rank them with `enumerate(.., 1)` — using the deterministic
representative `sortValues` of the sort contract. -/
def rankedNetworks (rows : List CRow) : List (Nat × String × ℚ) :=
  List.enumFrom 1 (sortValues (networkAvg rows))

/-- `Series.idxmax` (line 127): the first row carrying the maximal
`usd avg`; pandas raises `ValueError` on an empty frame, hence
`none`. -/
def argmaxRow : List CRow → Option CRow
  | [] => none
  | r :: rs =>
      some (rs.foldl (fun best x => if best.usdAvg < x.usdAvg then x else best) r)

/-- `Series.idxmin` (line 128): the first row carrying the minimal
`usd avg`; `none` on an empty frame. -/
def argminRow : List CRow → Option CRow
  | [] => none
  | r :: rs =>
      some (rs.foldl (fun best x => if x.usdAvg < best.usdAvg then x else best) r)

/-- Lines 118-130 of `avg_cost.py`: the statistical summary.  The
ranking loop is happy with an empty frame (it prints nothing), but
`idxmax` / `idxmin` raise `ValueError` there, modelled as
`Except.error` carrying pandas' message. -/
def analyzeSummary (rows : List CRow) :
    Except String (List (Nat × String × ℚ) × CRow × CRow) :=
  match argmaxRow rows, argminRow rows with
  | some mx, some mn => .ok (rankedNetworks rows, mx, mn)
  | _, _ => .error "attempt to get argmax of an empty sequence"

/-- Line 75 of `avg_cost.py`:
`df.pivot_table(values := usd avg, index := Function,
columns := Network, aggfunc := mean)` — a cell is the mean of the
matching rows, or `NaN` (`none`) when no row matches.  Unlike
`DataFrame.pivot`, duplicates are aggregated, never an error. -/
def pivotData (rows : List CRow) (f n : String) : Option ℚ :=
  if (rows.filter fun r => decide (r.function = f ∧ r.network = n)) = []
  then none
  else some (meanOf ((rows.filter fun r =>
    decide (r.function = f ∧ r.network = n)).map fun r => r.usdAvg))

/-- The chart files `analyze_gas_costs` saves, in order. -/
def gasChartArtifacts : List String :=
  ["gas_cost_analysis_charts/merged_contract_cost_comparison.png",
   "gas_cost_analysis_charts/cost_heatmap.png",
   "gas_cost_analysis_charts/cost_distribution_boxplot.png"]

/-- Artifact trace of `analyze_gas_costs` (`avg_cost.py`): lines 18-22
print an error and return before any chart is produced when the input
file is missing. -/
def analyzeGasCostsRun (file : Option (List CRow)) : List String :=
  match file with
  | none => []
  | some _ => gasChartArtifacts

/-- Decidable equality for pivot-cell results, used to evaluate the
model on concrete tables. -/
instance : DecidableEq (Except String ℚ) := fun a b =>
  match a, b with
  | .ok x, .ok y => decidable_of_iff (x = y) (by simp)
  | .error x, .error y => decidable_of_iff (x = y) (by simp)
  | .ok _, .error _ => isFalse (by simp)
  | .error _, .ok _ => isFalse (by simp)

/-! ## Claims -/

/-- C10: every cleaned row is routed into exactly one of the two reports
by case-sensitive equality of its `Method` field with the literal
"deployment": it is in the execution frame iff its method differs from
"deployment", in the deployment frame iff its method equals
"deployment", and the two frames together account for every row. -/
theorem c10_method_split :
    (∀ (l : List PRow) (r : PRow),
      (r ∈ executionDf l ↔ r ∈ l ∧ r.method ≠ "deployment")
      ∧ (r ∈ deploymentDf l ↔ r ∈ l ∧ r.method = "deployment"))
    ∧ ∀ l : List PRow,
      (executionDf l).length + (deploymentDf l).length = l.length := by
  constructor
  · intro l r
    constructor <;> simp [executionDf, deploymentDf, List.mem_filter]
  · intro l
    induction l with
    | nil => rfl
    | cons r rs ih =>
        by_cases h : r.method = "deployment" <;>
          simp [executionDf, deploymentDf, List.filter_cons, h] at ih ⊢ <;>
          omega

/-- C1 (counterexample): the cleaning step does not guarantee a
non-negative cost column, and `panda.py` does not coerce
currency-formatted strings: a cell "-1" survives `to_numeric` with the
negative value -1, while a cell "$0.08" fails coercion (so its row is
dropped instead of contributing 0.08). -/
theorem c1_cost_cleaning_counterexample :
    (cleanPanda [⟨"C", "transfer", "netA", "-1"⟩]).map (fun r => r.usdAvg)
        = [(-1 : ℚ)]
    ∧ ((-1 : ℚ) < 0)
    ∧ cleanPanda [⟨"C", "transfer", "netA", "$0.08"⟩] = [] := by
  refine ⟨?_, by norm_num, ?_⟩
  · have h : parsePieces "-1" = some (true, 1, 0, 0) := by decide
    simp [cleanPanda, toNumeric, h]
  · have h : parsePieces "$0.08" = none := by decide
    simp [cleanPanda, toNumeric, h]

/-- C1 (amended): after cleaning, the cost column is numeric — rows
failing coercion are excluded, never treated as 0 — but it need not be
non-negative.  In `panda.py` the cleaned costs are exactly the cells
`to_numeric` can parse, so a currency string such as "$0.08" is dropped
rather than read as 0.08; in `deployment.py` the dollar sign is
stripped first, so "$0.08" cleans to 0.08, while an uncoercible cell
such as "N/A" aborts the whole run instead of dropping one row. -/
theorem c1_cost_cleaning_amended :
    (∀ raw : List PRawRow,
      (cleanPanda raw).map (fun r => r.usdAvg)
        = raw.filterMap fun r => toNumeric r.usdAvg)
    ∧ toNumeric "$0.08" = none
    ∧ toNumeric "N/A" = none
    ∧ cleanDeployment [⟨"ERC20", "Polygon", "$0.08"⟩]
        = some [⟨"ERC20", "Polygon", 2/25⟩]
    ∧ cleanDeployment [⟨"ERC20", "Polygon", "N/A"⟩] = none := by
  refine ⟨?_, ?_, ?_, ?_, ?_⟩
  · intro raw
    simp [cleanPanda, List.map_filterMap, Function.comp_def]
  · have h : parsePieces "$0.08" = none := by decide
    simp [toNumeric, h]
  · have h : parsePieces "N/A" = none := by decide
    simp [toNumeric, h]
  · have hs : stripDollar "$0.08" = "0.08" := by decide
    have h : parsePieces "0.08" = some (false, 0, 8, 2) := by decide
    simp [cleanDeployment, hs, toNumeric, h]
    norm_num
  · have hs : stripDollar "N/A" = "N/A" := by decide
    have h : parsePieces "N/A" = none := by decide
    simp [cleanDeployment, hs, toNumeric, h]

/-- C4 (counterexample): on an empty table the summary of `avg_cost.py`
does not report "no data": the `idxmax` call raises an unhandled
`ValueError`. -/
theorem c4_empty_table_counterexample :
    analyzeSummary ([] : List CRow)
      = Except.error "attempt to get argmax of an empty sequence" := rfl

/-- C4 (amended): on a table with zero rows the per-network ranking is
silently empty, and the most/least-expensive queries raise an unhandled
`ValueError` (`idxmax` of an empty sequence); the summary errors out
exactly on the empty table, and no "no data" report exists. -/
theorem c4_empty_table_amended :
    rankedNetworks ([] : List CRow) = []
    ∧ ∀ rows : List CRow,
      analyzeSummary rows
          = Except.error "attempt to get argmax of an empty sequence"
        ↔ rows = [] := by
  constructor
  · simp [rankedNetworks, sortValues, networkAvg, networkKeys]
  · intro rows
    cases rows <;> simp [analyzeSummary, argmaxRow, argminRow]

/-- C8 (counterexample): a missing input file does not abort
`deployment.py`: the script substitutes its hard-coded dummy table and
runs the whole pipeline, writing all three chart files. -/
theorem c8_missing_file_counterexample :
    deploymentRun none =
      ["deployment_costs_bar_charts.png", "deployment_costs_line_charts.png",
       "deployment_costs_summary.png"] := by decide

/-- C8 (amended): `avg_cost.py` (and `panda.py`) print a message and
return early on a missing input file, producing no artifacts, but
`deployment.py` instead prints a notice, substitutes a hard-coded dummy
dataset and runs the full pipeline, writing every chart. -/
theorem c8_missing_file_amended :
    analyzeGasCostsRun none = [] ∧ pandaRun none = []
      ∧ deploymentRun none = deploymentArtifacts := by
  exact ⟨rfl, rfl, by decide⟩

/-- C2: for every comparison row whose contract has a baseline
(Ethereum) entry with nonzero cost b and whose own cost is c, the
comparator computes the discount columns as b - c dollars and
(b - c) / b * 100 percent. -/
theorem c2_discount_formula (rows : List DepRow) (r : CompRow) (b : ℚ)
    (hr : r ∈ comparisonRows rows)
    (hb : lookupLast (ethereumRows rows) r.contract = some b)
    (hb0 : b ≠ 0) :
    r.discountUsd = PFloat.fin (b - r.cost)
    ∧ r.discountPct = PFloat.fin ((b - r.cost) / b * 100) := by
  simp only [comparisonRows, List.mem_map, List.mem_filter] at hr
  obtain ⟨r0, -, rfl⟩ := hr
  simp only at hb
  simp [hb, PFloat.sub, PFloat.div, PFloat.mul, if_neg hb0]

/-- C2 witness: with Ethereum cost 10 and netB cost 5 for the same
contract, the discount columns are 5 dollars and 50 percent. -/
theorem c2_discount_formula_witness :
    (⟨"cX", "netB", 5, .fin 10, .fin 5, .fin 50⟩ : CompRow).discountUsd
        = PFloat.fin ((10 : ℚ) - 5)
    ∧ (⟨"cX", "netB", 5, .fin 10, .fin 5, .fin 50⟩ : CompRow).discountPct
        = PFloat.fin (((10 : ℚ) - 5) / 10 * 100) := by
  have hcomp : comparisonRows [⟨"cX", "Ethereum", 10⟩, ⟨"cX", "netB", 5⟩]
      = [⟨"cX", "netB", 5, .fin 10, .fin 5, .fin 50⟩] := by
    simp [comparisonRows, ethereumRows, lookupLast, PFloat.sub, PFloat.div,
      PFloat.mul]
    norm_num
  exact c2_discount_formula
    [⟨"cX", "Ethereum", 10⟩, ⟨"cX", "netB", 5⟩]
    ⟨"cX", "netB", 5, .fin 10, .fin 5, .fin 50⟩ 10
    (by rw [hcomp]; exact List.mem_singleton.mpr rfl)
    (by decide) (by norm_num)

/-- C5 (counterexample): with a zero Ethereum baseline and a positive
other cost, the percentage column is the float value -inf, not the
sentinel "undefined". -/
theorem c5_zero_baseline_counterexample :
    (comparisonRows [⟨"cZ", "Ethereum", 0⟩, ⟨"cZ", "netB", 5⟩]).map
        (fun r => r.discountPct) = [PFloat.ninf] := by
  have hcomp : comparisonRows [⟨"cZ", "Ethereum", 0⟩, ⟨"cZ", "netB", 5⟩]
      = [⟨"cZ", "netB", 5, .fin 0, .fin (0 - 5), .ninf⟩] := by
    simp [comparisonRows, ethereumRows, lookupLast, PFloat.sub, PFloat.div,
      PFloat.mul]
    norm_num
  rw [hcomp]
  rfl

/-- C5 (amended): a zero baseline cost does not raise and is not
reported as a sentinel: numpy division by zero makes the percentage
column +inf (other cost negative), NaN (other cost zero) or -inf
(other cost positive). -/
theorem c5_zero_baseline_amended (rows : List DepRow) (r : CompRow)
    (hr : r ∈ comparisonRows rows)
    (hb : lookupLast (ethereumRows rows) r.contract = some 0) :
    r.discountPct = if r.cost < 0 then PFloat.inf
      else if r.cost = 0 then PFloat.nan else PFloat.ninf := by
  simp only [comparisonRows, List.mem_map, List.mem_filter] at hr
  obtain ⟨r0, -, rfl⟩ := hr
  simp only at hb
  simp only [hb, PFloat.sub, PFloat.div, PFloat.mul]
  rcases lt_trichotomy r0.cost 0 with h | h | h
  · rw [if_pos (by linarith : (0 : ℚ) < 0 - r0.cost)]
    simp [PFloat.mul, h]
  · simp [h]
  · rw [if_neg (by linarith : ¬ (0 : ℚ) < 0 - r0.cost),
      if_pos (by linarith : (0 : ℚ) - r0.cost < 0)]
    rw [if_neg (not_lt.mpr h.le), if_neg h.ne']
    simp [PFloat.mul]

/-- C5 witness: baseline 0 and other cost 5 yield -inf in the
percentage column. -/
theorem c5_zero_baseline_witness :
    (⟨"cZ", "netB", 5, .fin 0, .fin (0 - 5), .ninf⟩ : CompRow).discountPct
      = if (5 : ℚ) < 0 then PFloat.inf
        else if (5 : ℚ) = 0 then PFloat.nan else PFloat.ninf := by
  have hcomp : comparisonRows [⟨"cZ", "Ethereum", 0⟩, ⟨"cZ", "netB", 5⟩]
      = [⟨"cZ", "netB", 5, .fin 0, .fin (0 - 5), .ninf⟩] := by
    simp [comparisonRows, ethereumRows, lookupLast, PFloat.sub, PFloat.div,
      PFloat.mul]
    norm_num
  have h := c5_zero_baseline_amended
    [⟨"cZ", "Ethereum", 0⟩, ⟨"cZ", "netB", 5⟩]
    ⟨"cZ", "netB", 5, .fin 0, .fin (0 - 5), .ninf⟩
    (by rw [hcomp]; exact List.mem_singleton.mpr rfl)
    (by decide)
  simpa using h

/-- C7 (counterexample): a comparison key with no baseline entry is not
excluded: the row stays in the comparison output (here the output still
has one row) with a NaN discount, and no exclusion count exists. -/
theorem c7_missing_baseline_counterexample :
    (comparisonRows [⟨"cX", "netB", 5⟩]).length = 1
    ∧ (comparisonRows [⟨"cX", "netB", 5⟩]).map (fun r => r.discountUsd)
        = [PFloat.nan] := by
  constructor <;> decide

/-- C7 (amended): a comparison row whose contract is absent from the
Ethereum baseline gets NaN in the baseline and discount columns but is
kept — the comparison output always has exactly one row per
non-Ethereum input row, so nothing is excluded and no count of
exclusions is reported. -/
theorem c7_missing_baseline_amended :
    (∀ (rows : List DepRow) (r : CompRow), r ∈ comparisonRows rows →
      lookupLast (ethereumRows rows) r.contract = none →
      r.ethCost = PFloat.nan ∧ r.discountUsd = PFloat.nan
        ∧ r.discountPct = PFloat.nan)
    ∧ ∀ rows : List DepRow,
      (comparisonRows rows).length
        = (rows.filter fun r => decide (r.network ≠ "Ethereum")).length := by
  constructor
  · intro rows r hr hb
    simp only [comparisonRows, List.mem_map, List.mem_filter] at hr
    obtain ⟨r0, -, rfl⟩ := hr
    simp only at hb
    simp [hb, PFloat.sub, PFloat.div, PFloat.mul]
  · intro rows
    simp [comparisonRows]

/-- C7 witness: one netB row with no Ethereum entry stays in the output
with NaN columns. -/
theorem c7_missing_baseline_witness :
    ((⟨"cX", "netB", 5, .nan, .nan, .nan⟩ : CompRow).ethCost = PFloat.nan
      ∧ (⟨"cX", "netB", 5, .nan, .nan, .nan⟩ : CompRow).discountUsd = PFloat.nan
      ∧ (⟨"cX", "netB", 5, .nan, .nan, .nan⟩ : CompRow).discountPct = PFloat.nan)
    ∧ (comparisonRows [⟨"cX", "netB", 5⟩]).length
        = (([⟨"cX", "netB", 5⟩] : List DepRow).filter
            fun r => decide (r.network ≠ "Ethereum")).length := by
  exact ⟨c7_missing_baseline_amended.1 [⟨"cX", "netB", 5⟩]
      ⟨"cX", "netB", 5, .nan, .nan, .nan⟩ (by decide) (by decide),
    c7_missing_baseline_amended.2 [⟨"cX", "netB", 5⟩]⟩

/-- C6 (counterexample): in the deployment pivot of `panda.py` a
(Contract, Network) combination with no underlying row is represented
by the numeric value 0 (because of `fillna(0)`), indistinguishable from
a true zero cost: contract "A" was never deployed on "n2", yet its cell
reads 0. -/
theorem c6_pivot_counterexample :
    pivotDeploymentCell
        [⟨"A", "deployment", "n1", "3"⟩, ⟨"B", "deployment", "n2", "4"⟩]
        "A" "n2" = .ok 0
    ∧ (cleanPanda
        [⟨"A", "deployment", "n1", "3"⟩, ⟨"B", "deployment", "n2", "4"⟩]).filter
        (fun r => decide (r.contract = "A" ∧ r.network = "n2")) = [] := by
  constructor <;> decide

/-- C6 (amended): only the `pivot_table` of `avg_cost.py` marks a
missing (Function, Network) combination with NaN (`none`), a marker
distinct from 0; the execution and deployment pivots of `panda.py`
apply `fillna(0)`, so a missing combination is represented by the
numeric value 0. -/
theorem c6_pivot_amended :
    (∀ (rows : List CRow) (f n : String),
      (rows.filter fun r => decide (r.function = f ∧ r.network = n)) = [] →
      pivotData rows f n = none)
    ∧ ∀ (raw : List PRawRow) (c n : String),
      ((deploymentPairs (cleanPanda raw)).map Prod.fst).Nodup →
      ((deploymentPairs (cleanPanda raw)).filter
        fun x => decide (x.1 = (c, n))) = [] →
      pivotDeploymentCell raw c n = .ok 0 := by
  constructor
  · intro rows f n h
    simp only [pivotData]
    rw [if_pos h]
  · intro raw c n hnd h
    simp only [pivotDeploymentCell, pivotCell]
    rw [if_pos hnd, h]
    rfl

/-- C6 witness: a present-but-elsewhere function is `none` in the
`pivot_table`, and the missing ("A", "n2") deployment cell is 0. -/
theorem c6_pivot_amended_witness :
    pivotData [⟨"netA", "C", "f", 1⟩] "g" "netA" = none
    ∧ pivotDeploymentCell
        [⟨"A", "deployment", "n1", "3"⟩, ⟨"B", "deployment", "n2", "4"⟩]
        "A" "n2" = .ok 0 :=
  ⟨c6_pivot_amended.1 [⟨"netA", "C", "f", 1⟩] "g" "netA" (by decide),
   c6_pivot_amended.2
     [⟨"A", "deployment", "n1", "3"⟩, ⟨"B", "deployment", "n2", "4"⟩]
     "A" "n2" (by decide) (by decide)⟩

/-- C9 (counterexample): duplicate (Contract, Network) keys among the
deployment rows make the `DataFrame.pivot` at line 63 of `panda.py`
raise `ValueError` instead of aggregating the rows. -/
theorem c9_duplicate_keys_counterexample :
    pivotDeploymentCell
        [⟨"A", "deployment", "n1", "3"⟩, ⟨"A", "deployment", "n1", "4"⟩]
        "A" "n1"
      = .error "Index contains duplicate entries, cannot reshape" := by
  decide

/-- C9 (amended): the groupby-based aggregations do combine duplicate
keys — the execution report sums every row of a (Method, Network)
group, and `pivot_table` averages every row of a (Function, Network)
cell — but the deployment pivot of `panda.py` uses `DataFrame.pivot`,
which instead raises `ValueError` whenever a (Contract, Network) key is
duplicated. -/
theorem c9_duplicate_keys_amended :
    (∀ (l : List PRow) (k : String × String) (v : ℚ),
      (k, v) ∈ totalCostByFunction l →
      v = (((executionDf l).filter fun r =>
        decide ((r.method, r.network) = k)).map fun r => r.usdAvg).sum)
    ∧ (∀ (rows : List CRow) (f n : String),
      (rows.filter fun r => decide (r.function = f ∧ r.network = n)) ≠ [] →
      pivotData rows f n
        = some (meanOf ((rows.filter fun r =>
            decide (r.function = f ∧ r.network = n)).map fun r => r.usdAvg)))
    ∧ ∀ (raw : List PRawRow) (c n : String),
      ¬ ((deploymentPairs (cleanPanda raw)).map Prod.fst).Nodup →
      pivotDeploymentCell raw c n
        = .error "Index contains duplicate entries, cannot reshape" := by
  refine ⟨?_, ?_, ?_⟩
  · intro l k v hv
    simp only [totalCostByFunction, List.mem_map] at hv
    obtain ⟨k0, -, hk⟩ := hv
    obtain ⟨rfl, rfl⟩ := Prod.mk.injEq .. ▸ hk
    rfl
  · intro rows f n h
    simp only [pivotData]
    rw [if_neg h]
  · intro raw c n hnd
    simp only [pivotDeploymentCell, pivotCell]
    rw [if_neg hnd]
    rfl

/-- C3 (counterexample): the ranking sort is not guaranteed stable.
Two networks "a" and "b" with exactly tied means enter the sort in the
order ("a", 1), ("b", 1) (the groupby output), yet the documented
contract of `sort_values()` (default quicksort, not stable) also admits
the output ("b", 1), ("a", 1), in which the tied groups do not keep
their input order. -/
theorem c3_ranking_counterexample :
    SortValuesSpec (networkAvg [⟨"a", "C", "f", 1⟩, ⟨"b", "C", "f", 1⟩])
        [("b", 1), ("a", 1)]
    ∧ ([(("b" : String), (1 : ℚ)), ("a", 1)].filter fun p => decide (p.2 = 1))
        ≠ ((networkAvg [⟨"a", "C", "f", 1⟩, ⟨"b", "C", "f", 1⟩]).filter
            fun p => decide (p.2 = 1)) := by
  have hd : (([⟨"a", "C", "f", 1⟩, ⟨"b", "C", "f", 1⟩] : List CRow).map
      fun r => r.network).dedup = ["a", "b"] := by decide
  have hk : networkKeys [⟨"a", "C", "f", 1⟩, ⟨"b", "C", "f", 1⟩]
      = ["a", "b"] := by
    simp only [networkKeys, hd]
    refine List.mergeSort_of_sorted ?_
    simp [List.pairwise_cons]
    decide
  have hna : networkAvg [⟨"a", "C", "f", 1⟩, ⟨"b", "C", "f", 1⟩]
      = [("a", 1), ("b", 1)] := by
    simp [networkAvg, hk, meanOf]
  constructor
  · rw [hna]
    exact ⟨List.Perm.swap ("a", (1 : ℚ)) ("b", 1) [],
      by simp [List.sorted_cons]⟩
  · rw [hna]
    decide

/-- C3 (amended): for a grouping with N distinct group values, every
output admitted by the contract of the ranking's `sort_values()` call
carries the ranks 1..N exactly once, in order, and its aggregates are
non-decreasing along the ranking; stability, however, is not a program
guarantee — the default quicksort promises only a value-sorted
permutation, and an output that reorders exactly tied groups is
admitted (see the counterexample). -/
theorem c3_ranking_amended (rows : List CRow) (l' : List (String × ℚ))
    (h : SortValuesSpec (networkAvg rows) l') :
    ((List.enumFrom 1 l').map Prod.fst
      = List.range' 1 (networkAvg rows).length)
    ∧ List.Sorted (fun a b : ℚ => a ≤ b)
        ((List.enumFrom 1 l').map fun p => p.2.2) := by
  obtain ⟨hperm, hsort⟩ := h
  constructor
  · rw [List.enumFrom_map_fst, hperm.length_eq]
  · have hmap : ((List.enumFrom 1 l').map fun p => p.2.2)
        = l'.map fun q => q.2 := by
      rw [show (fun p : Nat × String × ℚ => p.2.2)
            = (fun q : String × ℚ => q.2) ∘ Prod.snd from rfl,
        ← List.map_map, List.enumFrom_map_snd]
    rw [hmap, List.Sorted, List.pairwise_map]
    exact hsort

/-- C3 witness: on a one-network table, the group-mean list itself is an
admitted sort output, and its ranking carries rank 1 with a trivially
sorted aggregate column. -/
theorem c3_ranking_amended_witness :
    ((List.enumFrom 1 (networkAvg [⟨"a", "C", "f", 1⟩])).map Prod.fst
      = List.range' 1 (networkAvg [⟨"a", "C", "f", 1⟩]).length)
    ∧ List.Sorted (fun a b : ℚ => a ≤ b)
        ((List.enumFrom 1 (networkAvg [⟨"a", "C", "f", 1⟩])).map
          fun p => p.2.2) :=
  c3_ranking_amended [⟨"a", "C", "f", 1⟩] (networkAvg [⟨"a", "C", "f", 1⟩])
    ⟨List.Perm.refl _, by simp [networkAvg, networkKeys]⟩

/-- C9 witness: two execution rows sharing the key (m, n) are summed;
a present `pivot_table` cell is the group mean; and the duplicated
deployment key raises. -/
theorem c9_duplicate_keys_amended_witness :
    ((5 : ℚ) = (((executionDf [⟨"C", "m", "n", 2⟩, ⟨"D", "m", "n", 3⟩]).filter
        fun r => decide ((r.method, r.network) = ("m", "n"))).map
          fun r => r.usdAvg).sum)
    ∧ pivotData [⟨"n1", "C", "f", 3⟩] "f" "n1"
        = some (meanOf ((([⟨"n1", "C", "f", 3⟩] : List CRow).filter
            fun r => decide (r.function = "f" ∧ r.network = "n1")).map
              fun r => r.usdAvg))
    ∧ pivotDeploymentCell
        [⟨"A", "deployment", "n1", "3"⟩, ⟨"A", "deployment", "n1", "4"⟩]
        "A" "n1"
      = .error "Index contains duplicate entries, cannot reshape" := by
  refine ⟨?_, ?_, ?_⟩
  · have h := c9_duplicate_keys_amended.1
      [⟨"C", "m", "n", 2⟩, ⟨"D", "m", "n", 3⟩] ("m", "n")
      ((((executionDf [⟨"C", "m", "n", 2⟩, ⟨"D", "m", "n", 3⟩]).filter
        fun r => decide ((r.method, r.network) = ("m", "n"))).map
          fun r => r.usdAvg).sum) ?_
    · rw [← h] at h ⊢
      simp [executionDf, meanOf] at h ⊢
      norm_num [h]
    · simp [totalCostByFunction, methodNetworkKeys, executionDf]
  · exact c9_duplicate_keys_amended.2.1 [⟨"n1", "C", "f", 3⟩] "f" "n1"
      (by decide)
  · exact c9_duplicate_keys_amended.2.2
      [⟨"A", "deployment", "n1", "3"⟩, ⟨"A", "deployment", "n1", "4"⟩]
      "A" "n1" (by decide)
